import Mathlib

/-!
Shallow embedding of the connection-management core of the gas-tracker
repository: `src/services/web3Service.ts` (chain configs, `connectToChain`,
the block-monitoring poll loop, the offline simulation) together with the
store action `updateGas` of `src/store/gasStore.ts` and the number-formatting
utilities (`safeNumber`, `formatGwei`, `formatEther`).

JavaScript numbers are modelled as `JSNum`: a finite rational, `NaN`, or a
signed infinity.  Arithmetic on values the code has already guarded to be
finite is carried out in `ℚ`.  Random draws (`Math.random()`) appear as
explicit rational parameters in `[0,1)`.  Timer-driven behaviour is modelled
as step functions returning the successor state together with the list of
effects (store writes, scheduled retries) the step performs.
-/

namespace GasTracker

/-! ### JavaScript numbers -/

/-- A JavaScript number: a finite value (modelled exactly as a rational),
`NaN`, `Infinity` or `-Infinity`. -/
inductive JSNum where
  | finite (q : ℚ)
  | nan
  | posInf
  | negInf
deriving DecidableEq, Repr

/-- The JavaScript global `isFinite` on a number. -/
def JSNum.isFinite : JSNum → Bool
  | .finite _ => true
  | _ => false

/-- The ternary `isFinite(x) ? x : 0` the store applies before recording a
fee: a finite number passes through, everything else becomes `0`. -/
def finiteOrZero : JSNum → ℚ
  | .finite q => q
  | _ => 0

/-- A JavaScript value as it settles out of an RPC promise: either a number
or a value of some other runtime type. -/
inductive JSVal where
  | num (x : JSNum)
  | nonNumber
deriving DecidableEq, Repr

/-- The JavaScript comparison `x <= 0` on a number.  `NaN <= 0` evaluates to
`false` (NaN is unordered), `Infinity <= 0` to `false`, `-Infinity <= 0` to
`true`. -/
def jsLeZero : JSNum → Bool
  | .finite q => q ≤ 0
  | .nan => false
  | .posInf => false
  | .negInf => true

/-! ### Chain configuration (`CHAIN_CONFIGS` in web3Service.ts) -/

/-- One chain's configuration: display name, primary RPC URL, ordered
fallback URLs and (nominal) block time in seconds. -/
structure ChainConfig where
  name : String
  rpcUrl : String
  fallbackUrls : List String
  blockTime : ℚ
deriving DecidableEq, Repr

/-- The closed set of supported network identifiers. -/
inductive ChainKey where
  | ethereum
  | polygon
  | arbitrum
deriving DecidableEq, Repr

/-- The `CHAIN_CONFIGS` constant of web3Service.ts. -/
def CHAIN_CONFIGS : ChainKey → ChainConfig
  | .ethereum =>
    { name := "Ethereum"
      rpcUrl := "https://ethereum.publicnode.com"
      fallbackUrls :=
        [ "https://rpc.ankr.com/eth"
        , "https://eth.llamarpc.com"
        , "https://1rpc.io/eth"
        , "https://cloudflare-eth.com"
        , "https://ethereum.blockpi.network/v1/rpc/public" ]
      blockTime := 12 }
  | .polygon =>
    { name := "Polygon"
      rpcUrl := "https://polygon.publicnode.com"
      fallbackUrls :=
        [ "https://rpc.ankr.com/polygon"
        , "https://polygon.llamarpc.com"
        , "https://1rpc.io/matic"
        , "https://polygon.blockpi.network/v1/rpc/public"
        , "https://polygon.drpc.org" ]
      blockTime := 2 }
  | .arbitrum =>
    { name := "Arbitrum"
      rpcUrl := "https://arbitrum.publicnode.com"
      fallbackUrls :=
        [ "https://rpc.ankr.com/arbitrum"
        , "https://arbitrum.llamarpc.com"
        , "https://1rpc.io/arb"
        , "https://arbitrum.blockpi.network/v1/rpc/public"
        , "https://arbitrum.drpc.org" ]
      blockTime := 1 }

/-- Line 108 of web3Service.ts: `const urlsToTry = [config.rpcUrl,
...config.fallbackUrls]` — the candidate list a connection attempt walks,
primary first, then the fallbacks in configured order. -/
def urlsToTry (config : ChainConfig) : List String :=
  config.rpcUrl :: config.fallbackUrls

/-- `DEV_CONFIG.connectionTimeout` from config/development.ts: the per-probe
timeout in milliseconds. -/
def connectionTimeout : ℚ := 5000

/-! ### Probing one candidate (lines 116-134 of web3Service.ts) -/

/-- How one candidate endpoint behaves when probed: after `responseMs`
milliseconds its `getBlockNumber()` promise settles with `blockNumber`
(a value of arbitrary runtime type). -/
structure ProbeBehavior where
  responseMs : ℚ
  blockNumber : JSVal
deriving DecidableEq, Repr

/-- The validity guard on lines 132-134: `if (typeof blockNumber !== 'number'
|| blockNumber <= 0) throw`.  A candidate's response is accepted exactly when
it is of runtime type number and the comparison `blockNumber <= 0` is false.
Note that for `NaN` that comparison is false, so `NaN` is accepted. -/
def acceptBlockNumber : JSVal → Bool
  | .num x => !jsLeZero x
  | .nonNumber => false

/-- Outcome of `Promise.race([provider.getBlockNumber(), timeoutPromise])`
followed by the validity guard: the candidate succeeds when its response
arrives before the timeout fires and passes the block-number guard. -/
def candidateSucceeds (timeoutMs : ℚ) (b : ProbeBehavior) : Bool :=
  if timeoutMs ≤ b.responseMs then false else acceptBlockNumber b.blockNumber

/-! ### `connectToChain` (lines 106-169 of web3Service.ts)

The `for` loop walks `urlsToTry` front to back; the first candidate whose
probe succeeds is stored as the active provider and the loop `return`s, so no
later candidate is attempted.  The embedding returns the list of candidates
actually attempted, in the order they were attempted, together with the
active endpoint (`none` when every candidate failed). -/

/-- The sequential candidate walk of `connectToChain`: `behavior` gives each
URL's probe behaviour.  Returns (candidates attempted in order, first
successful candidate or `none`). -/
def connectToChain (timeoutMs : ℚ) (behavior : String → ProbeBehavior) :
    List String → List String × Option String
  | [] => ([], none)
  | url :: rest =>
    if candidateSucceeds timeoutMs (behavior url) then
      ([url], some url)
    else
      let r := connectToChain timeoutMs behavior rest
      (url :: r.1, r.2)

/-- Lines 151-165 of web3Service.ts: only when the last candidate has also
failed does the service mark the chain disconnected and schedule another
`connectToChain` run `30000` ms later — equivalently, a 30 s retry is
scheduled exactly when no candidate succeeded. -/
def connectFailureSchedule (timeoutMs : ℚ) (behavior : String → ProbeBehavior)
    (urls : List String) : Option ℕ :=
  match (connectToChain timeoutMs behavior urls).2 with
  | none => some 30000
  | some _ => none

/-! ### Block monitoring (`startBlockMonitoring`, lines 171-250 of
web3Service.ts)

The closure `pollLatestBlock` keeps a connection state per chain: the local
counter `consecutiveErrors` and the `isConnected` flag.  Each timer tick
either reads a block (possibly `null`), or throws.  The embedding is a step
function from the current state and the tick's outcome to the successor
state plus the effects performed (a `store.updateGas` write, a scheduled
reconnect). -/

/-- The connection-monitoring state of one chain: the consecutive-failure
counter of `pollLatestBlock` and the chain's `isConnected` flag. -/
structure MonitorState where
  consecutiveErrors : ℕ
  isConnected : Bool
deriving DecidableEq, Repr

/-- `getFeeData()` as observed by the poll: the call either resolves with an
optional `maxPriorityFeePerGas` (in wei, `none` when the field is null) or
rejects. -/
inductive FeeDataResult where
  | ok (maxPriorityFeePerGas : Option ℚ)
  | err
deriving DecidableEq, Repr

/-- `Number(ethers.parseUnits(n.toString(), 'gwei'))`: `n` gwei in wei. -/
def parseUnitsGwei (n : ℚ) : ℚ := n * 10 ^ 9

/-- Lines 191-206 of web3Service.ts: the priority-fee estimate of one poll
tick.  On `ethereum`, use `feeData.maxPriorityFeePerGas` when `getFeeData()`
resolves with it (a present-but-zero value leaves the initial `0`, which
coincides with using the value), fall back to 2 gwei when the call rejects;
on every other chain use the fixed 1 gwei default. -/
def estimatePriorityFee (chainKey : ChainKey) (feeData : FeeDataResult) : ℚ :=
  if chainKey = .ethereum then
    match feeData with
    | .ok (some v) => v
    | .ok none => 0
    | .err => parseUnitsGwei 2
  else parseUnitsGwei 1

/-- `latestBlock` as the poll sees it: its optional `baseFeePerGas` in wei
(`none` on chains that report no base fee). -/
structure BlockData where
  baseFeePerGas : Option ℚ
deriving DecidableEq, Repr

/-- What one `pollLatestBlock` tick observes: `getBlock('latest')` resolves
with a block (and, on ethereum, `getFeeData()` settles as `feeData`), resolves
with `null`, or rejects. -/
inductive PollResult where
  | block (b : BlockData) (feeData : FeeDataResult)
  | nullBlock
  | error
deriving DecidableEq, Repr

/-- An effect performed by one poll tick: a `store.updateGas` write of the
derived fees (in wei), or a `setTimeout(connectToChain, delayMs)`. -/
inductive PollEffect where
  | updateGasFees (baseFee priorityFee : ℚ)
  | scheduleReconnect (delayMs : ℕ)
deriving DecidableEq, Repr

/-- `const maxConsecutiveErrors = 3` (line 177 of web3Service.ts). -/
def maxConsecutiveErrors : ℕ := 3

/-- One tick of `pollLatestBlock` (lines 180-240 of web3Service.ts).  On a
block: derive the fees, write them to the store, reset the failure counter to
0 and (re)assert `isConnected`.  On a `null` block: nothing happens.  On an
error: increment the counter; when it reaches `maxConsecutiveErrors`, mark
the chain disconnected and schedule a reconnect 10000 ms later. -/
def pollStep (chainKey : ChainKey) (s : MonitorState) :
    PollResult → MonitorState × List PollEffect
  | .block b feeData =>
    let baseFee : ℚ := match b.baseFeePerGas with
      | some q => q
      | none => 0
    let priorityFee := estimatePriorityFee chainKey feeData
    ({ consecutiveErrors := 0, isConnected := true },
      [.updateGasFees baseFee priorityFee])
  | .nullBlock => (s, [])
  | .error =>
    let consecutiveErrors := s.consecutiveErrors + 1
    if maxConsecutiveErrors ≤ consecutiveErrors then
      ({ consecutiveErrors := consecutiveErrors, isConnected := false },
        [.scheduleReconnect 10000])
    else
      ({ consecutiveErrors := consecutiveErrors, isConnected := s.isConnected }, [])

/-- The monitor state after `n` consecutive failing ticks, starting from the
freshly connected state (counter 0, connected). -/
def failN (chainKey : ChainKey) : ℕ → MonitorState
  | 0 => { consecutiveErrors := 0, isConnected := true }
  | n + 1 => (pollStep chainKey (failN chainKey n) .error).1

/-! ### Offline simulation (`startOfflineSimulation`, lines 335-391 of
web3Service.ts) -/

/-- The six independent `Math.random()` draws one `simulateGasPrices` tick
makes, in source order. -/
structure SimDraws where
  ethBaseDraw : ℚ
  ethPriorityDraw : ℚ
  polygonBaseDraw : ℚ
  polygonPriorityDraw : ℚ
  arbitrumBaseDraw : ℚ
  arbitrumPriorityDraw : ℚ
deriving DecidableEq, Repr

/-- Line 345: `Math.max(10, 15 + Math.random() * 40 - 10)` (gwei). -/
def ethBaseGwei (r : ℚ) : ℚ := max 10 (15 + r * 40 - 10)

/-- Line 346: `Math.max(0.5, 1 + Math.random() * 4 - 1)` (gwei). -/
def ethPriorityGwei (r : ℚ) : ℚ := max 0.5 (1 + r * 4 - 1)

/-- Line 348: `Math.max(15, 25 + Math.random() * 100 - 25)` (gwei). -/
def polygonBaseGwei (r : ℚ) : ℚ := max 15 (25 + r * 100 - 25)

/-- Line 349: `Math.max(0.5, 1 + Math.random() * 3 - 0.5)` (gwei). -/
def polygonPriorityGwei (r : ℚ) : ℚ := max 0.5 (1 + r * 3 - 0.5)

/-- Line 351: `Math.max(0.05, 0.2 + Math.random() * 0.6 - 0.15)` (gwei). -/
def arbitrumBaseGwei (r : ℚ) : ℚ := max 0.05 (0.2 + r * 0.6 - 0.15)

/-- Line 352: `Math.max(0.005, 0.02 + Math.random() * 0.08 - 0.015)` (gwei). -/
def arbitrumPriorityGwei (r : ℚ) : ℚ := max 0.005 (0.02 + r * 0.08 - 0.015)

/-- One `simulateGasPrices` tick (lines 341-384 of web3Service.ts): draw the
per-chain gwei values, convert to wei (`* 1e9`), and for each chain whose
`isConnected` entry is not `true` at generation time, emit a
`store.updateGas` write.  Returns the emitted `(chain, baseFeeWei,
priorityFeeWei)` writes in source order. -/
def simulateGasPrices (isConnected : ChainKey → Bool) (d : SimDraws) :
    List (ChainKey × ℚ × ℚ) :=
  (if isConnected .ethereum then []
   else [(.ethereum, ethBaseGwei d.ethBaseDraw * 1e9,
          ethPriorityGwei d.ethPriorityDraw * 1e9)]) ++
  (if isConnected .polygon then []
   else [(.polygon, polygonBaseGwei d.polygonBaseDraw * 1e9,
          polygonPriorityGwei d.polygonPriorityDraw * 1e9)]) ++
  (if isConnected .arbitrum then []
   else [(.arbitrum, arbitrumBaseGwei d.arbitrumBaseDraw * 1e9,
          arbitrumPriorityGwei d.arbitrumPriorityDraw * 1e9)])

/-! ### The store's `updateGas` action (lines 90-147 of gasStore.ts)

Timestamps (`Date.now()`) are modelled as naturals, so `Math.floor(t /
intervalMs) * intervalMs` is natural division followed by multiplication.
The candlestick field the source calls `open` is named `openFee` here
(`open` is a Lean keyword). -/

/-- One candlestick point of a chain's gas history. -/
structure GasPoint where
  time : ℕ
  openFee : ℚ
  high : ℚ
  low : ℚ
  close : ℚ
deriving DecidableEq, Repr

/-- One chain's slice of the store state. -/
structure ChainGas where
  baseFee : JSNum
  priorityFee : JSNum
  history : List GasPoint
  lastUpdated : ℕ
  isConnected : Bool
deriving DecidableEq, Repr

/-- `initialChainState` of gasStore.ts. -/
def initialChainState : ChainGas :=
  { baseFee := .finite 0
    priorityFee := .finite 0
    history := []
    lastUpdated := 0
    isConnected := false }

/-- `const intervalMs = 15 * 60 * 1000` (line 114 of gasStore.ts). -/
def intervalMs : ℕ := 15 * 60 * 1000

/-- `updatedHistory.slice(-100)` applied when the pushed history exceeds 100
points (lines 128-132 of gasStore.ts). -/
def truncateHistory (pushed : List GasPoint) : List GasPoint :=
  if 100 < pushed.length then pushed.drop (pushed.length - 100) else pushed

/-- The `updateGas` action (lines 90-147 of gasStore.ts) on one chain's
slice, given the tick's `Date.now()`: sanitize the two fee inputs with
`isFinite(x) ? x : 0`, derive the gwei candle value, update or append the
candlestick history, and record the sanitized fees with the timestamp. -/
def updateGas (state : ChainGas) (timestamp : ℕ)
    (baseFee priorityFee : JSNum) : ChainGas :=
  let safeBaseFee := finiteOrZero baseFee
  let safePriorityFee := finiteOrZero priorityFee
  let currentGas := (safeBaseFee + safePriorityFee) / 1e9
  let safeCurrentGas := currentGas
  let newPoint : GasPoint :=
    { time := timestamp
      openFee :=
        match state.history.getLast? with
        | some lastPoint => lastPoint.close
        | none => safeCurrentGas
      high := safeCurrentGas
      low := safeCurrentGas
      close := safeCurrentGas }
  let currentInterval := timestamp / intervalMs * intervalMs
  let updatedHistory :=
    match state.history.getLast? with
    | some lastPoint =>
      if lastPoint.time / intervalMs * intervalMs = currentInterval then
        state.history.dropLast ++
          [{ lastPoint with
              close := safeCurrentGas
              high := max lastPoint.high safeCurrentGas
              low := min lastPoint.low safeCurrentGas
              time := timestamp }]
      else
        truncateHistory (state.history ++ [newPoint])
    | none => truncateHistory (state.history ++ [newPoint])
  { state with
      baseFee := .finite safeBaseFee
      priorityFee := .finite safePriorityFee
      history := updatedHistory
      lastUpdated := timestamp }

/-! ### Number-formatting utilities (the `safeNumber` / `formatGwei` /
`formatEther` helpers)

`x.toFixed(d)` renders `x` with exactly `d` decimal digits, rounding to the
nearest multiple of `10^(-d)` and picking the larger candidate on a tie —
which is `round` (half towards `+∞`) of `x * 10^d`.  The embedding keeps the
rational value denoted by the returned string. -/

/-- `safeNumber(value, fallback)`: a finite number passes through, any
non-finite number yields the fallback. -/
def safeNumber (value : JSNum) (fallback : ℚ) : ℚ :=
  match value with
  | .finite q => q
  | _ => fallback

/-- The rational value denoted by `x.toFixed(digits)`. -/
def toFixedQ (digits : ℕ) (x : ℚ) : ℚ :=
  ((round (x * 10 ^ digits) : ℤ) : ℚ) / 10 ^ digits

/-- `formatGwei(wei)`: the value of `(safeNumber(wei) / 1e9).toFixed(2)`. -/
def formatGwei (wei : JSNum) : ℚ :=
  toFixedQ 2 (safeNumber wei 0 / 1e9)

/-- `formatEther(wei)`: the value of `(safeNumber(wei) / 1e18).toFixed(8)`. -/
def formatEther (wei : JSNum) : ℚ :=
  toFixedQ 8 (safeNumber wei 0 / 1e18)

/-- Converting a displayed gwei value back to wei. -/
def gweiToWei (gwei : ℚ) : ℚ := gwei * 1e9

/-- Converting a displayed ether value back to wei. -/
def etherToWei (ether : ℚ) : ℚ := ether * 1e18

/-- Round trip of a wei amount through the gwei display unit. -/
def gweiRoundTrip (wei : JSNum) : ℚ := gweiToWei (formatGwei wei)

/-- Round trip of a wei amount through the ether display unit. -/
def etherRoundTrip (wei : JSNum) : ℚ := etherToWei (formatEther wei)

/-! ### Helper lemmas about the candidate walk -/

/-- The candidates `connectToChain` attempts are an in-order prefix of the
configured candidate list. -/
theorem connectToChain_attempts_in_order (t : ℚ) (β : String → ProbeBehavior) :
    ∀ urls : List String,
      (connectToChain t β urls).1 = urls.take (connectToChain t β urls).1.length
  | [] => rfl
  | url :: rest => by
    cases hc : candidateSucceeds t (β url) with
    | true => simp [connectToChain, hc]
    | false =>
      have ih := connectToChain_attempts_in_order t β rest
      simp only [connectToChain, hc, Bool.false_eq_true, if_false, List.length_cons,
        List.take_succ_cons]
      exact congrArg (List.cons url) ih

/-- When `connectToChain` returns an active endpoint, it is the first
candidate (at some index `i`) whose probe succeeded: every earlier candidate
failed, and exactly the candidates up to and including it were attempted. -/
theorem connectToChain_success_index (t : ℚ) (β : String → ProbeBehavior) :
    ∀ (urls : List String) (u : String),
      (connectToChain t β urls).2 = some u →
      ∃ i, urls.get? i = some u
        ∧ candidateSucceeds t (β u) = true
        ∧ (connectToChain t β urls).1 = urls.take (i + 1)
        ∧ ∀ j v, j < i → urls.get? j = some v →
            candidateSucceeds t (β v) = false
  | [], u => by intro h; simp [connectToChain] at h
  | url :: rest, u => by
    intro h
    cases hc : candidateSucceeds t (β url) with
    | true =>
      simp only [connectToChain, hc, if_true] at h ⊢
      obtain rfl : url = u := by simpa using h
      exact ⟨0, by simp, hc, by simp [connectToChain, hc], by omega⟩
    | false =>
      have h' : (connectToChain t β rest).2 = some u := by
        simpa [connectToChain, hc] using h
      obtain ⟨i, hget, hsucc, htried, hprev⟩ :=
        connectToChain_success_index t β rest u h'
      refine ⟨i + 1, by simpa using hget, hsucc, ?_, ?_⟩
      · simp only [connectToChain, hc, Bool.false_eq_true, if_false,
          List.take_succ_cons]
        exact congrArg (List.cons url) htried
      · intro j v hj hv
        cases j with
        | zero =>
          obtain rfl : url = v := by simpa using hv
          exact hc
        | succ j' =>
          exact hprev j' v (by omega) (by simpa using hv)

/-- When every candidate fails, `connectToChain` attempts the whole list and
returns no active endpoint. -/
theorem connectToChain_exhausted (t : ℚ) (β : String → ProbeBehavior) :
    ∀ urls : List String,
      (connectToChain t β urls).2 = none →
      (connectToChain t β urls).1 = urls
      ∧ ∀ v ∈ urls, candidateSucceeds t (β v) = false
  | [] => by intro _; exact ⟨rfl, by simp⟩
  | url :: rest => by
    intro h
    cases hc : candidateSucceeds t (β url) with
    | true => simp [connectToChain, hc] at h
    | false =>
      have h' : (connectToChain t β rest).2 = none := by
        simpa [connectToChain, hc] using h
      obtain ⟨htried, hall⟩ := connectToChain_exhausted t β rest h'
      refine ⟨?_, ?_⟩
      · simp only [connectToChain, hc, Bool.false_eq_true, if_false]
        exact congrArg (List.cons url) htried
      · intro v hv
        rcases List.mem_cons.mp hv with rfl | hv
        · exact hc
        · exact hall v hv

/-! ### The claims -/

/-- C1: the simulation generator never writes a simulated fee reading into
the store for a network whose connection state is `isConnected = true` at
generation time — every `(chain, baseFeeWei, priorityFeeWei)` write a
`simulateGasPrices` tick emits is for a chain whose `isConnected` entry is
false, so live and simulated sources are never both emitted for the same
network at the same simulation tick. -/
theorem C1_no_simulated_reading_when_connected
    (isConnected : ChainKey → Bool) (d : SimDraws) (c : ChainKey)
    (baseFeeWei priorityFeeWei : ℚ)
    (h : (c, baseFeeWei, priorityFeeWei) ∈ simulateGasPrices isConnected d) :
    isConnected c = false := by
  cases c <;>
    by_cases he : isConnected .ethereum = true <;>
    by_cases hp : isConnected .polygon = true <;>
    by_cases ha : isConnected .arbitrum = true <;>
    simp_all [simulateGasPrices]

/-- Witness for C1: with no chain connected and all draws 0, the ethereum
write is emitted, and the theorem yields that ethereum is not connected. -/
theorem C1_witness :
    (ChainKey.ethereum, ethBaseGwei 0 * 1e9, ethPriorityGwei 0 * 1e9)
      ∈ simulateGasPrices (fun _ => false) ⟨0, 0, 0, 0, 0, 0⟩
    ∧ (fun _ : ChainKey => false) ChainKey.ethereum = false :=
  ⟨by simp [simulateGasPrices],
    C1_no_simulated_reading_when_connected (fun _ => false) ⟨0, 0, 0, 0, 0, 0⟩
      .ethereum (ethBaseGwei 0 * 1e9) (ethPriorityGwei 0 * 1e9)
      (by simp [simulateGasPrices])⟩

/-- C2: from any Connected monitor state a failing poll increments the
counter and the state flips to Disconnected exactly when the counter
reaches `maxConsecutiveErrors = 3`; along a trace of consecutive failures
from a fresh connection the chain stays Connected after 1 or 2 failures and
is Disconnected from the 3rd on; and any successful poll resets the counter
to 0 (and asserts Connected). -/
theorem C2_failure_threshold (c : ChainKey) :
    (∀ s : MonitorState, s.isConnected = true →
      (pollStep c s .error).1.consecutiveErrors = s.consecutiveErrors + 1
      ∧ (pollStep c s .error).1.isConnected
          = decide (s.consecutiveErrors + 1 < maxConsecutiveErrors))
    ∧ (∀ n : ℕ, (failN c n).consecutiveErrors = n
        ∧ (failN c n).isConnected = decide (n < maxConsecutiveErrors))
    ∧ (∀ s b feeData, (pollStep c s (.block b feeData)).1.consecutiveErrors = 0
        ∧ (pollStep c s (.block b feeData)).1.isConnected = true) := by
  refine ⟨?_, ?_, fun s b feeData => ⟨rfl, rfl⟩⟩
  · intro s hs
    by_cases h3 : maxConsecutiveErrors ≤ s.consecutiveErrors + 1
    · refine ⟨by simp [pollStep, h3], ?_⟩
      simp only [pollStep, h3, if_true]
      symm
      rw [decide_eq_false_iff_not]
      simp only [maxConsecutiveErrors] at h3 ⊢
      omega
    · refine ⟨by simp [pollStep, h3], ?_⟩
      simp only [pollStep, h3, if_false, hs]
      symm
      rw [decide_eq_true_eq]
      simp only [maxConsecutiveErrors] at h3 ⊢
      omega
  · intro n
    induction n with
    | zero => exact ⟨rfl, rfl⟩
    | succ k ih =>
      obtain ⟨h1, h2⟩ := ih
      by_cases h3 : maxConsecutiveErrors ≤ k + 1
      · refine ⟨?_, ?_⟩
        · show (pollStep c (failN c k) .error).1.consecutiveErrors = k + 1
          simp [pollStep, h1, h3]
        · show (pollStep c (failN c k) .error).1.isConnected = _
          simp only [pollStep, h1, h3, if_true]
          symm
          rw [decide_eq_false_iff_not]
          simp only [maxConsecutiveErrors] at h3 ⊢
          omega
      · refine ⟨?_, ?_⟩
        · show (pollStep c (failN c k) .error).1.consecutiveErrors = k + 1
          simp [pollStep, h1, h3]
        · show (pollStep c (failN c k) .error).1.isConnected = _
          simp only [pollStep, h1, h3, if_false, h2]
          rw [decide_eq_decide]
          simp only [maxConsecutiveErrors] at h3 ⊢
          omega

/-- Counterexample to C3 as stated: a Connected ethereum monitor at 2
consecutive failures reaches the threshold on the next failing poll, the
state flips to Disconnected, and the reconnection is scheduled only 10000 ms
later — sooner than the claimed 30-second backoff. -/
theorem C3_counterexample :
    (pollStep .ethereum { consecutiveErrors := 2, isConnected := true }
        .error).1.isConnected = false
    ∧ (pollStep .ethereum { consecutiveErrors := 2, isConnected := true }
        .error).2 = [.scheduleReconnect 10000]
    ∧ ¬ (30000 ≤ (10000 : ℕ)) := by decide

/-- C3 as amended: when every candidate of a connect attempt fails, a retry
is scheduled 30000 ms later, and whenever no retry is scheduled the connect
in fact succeeded (the manager never gives up); when the poll-failure
threshold is reached the reconnect is scheduled after only 10000 ms. -/
theorem C3_retry_scheduling (timeoutMs : ℚ) (behavior : String → ProbeBehavior)
    (urls : List String) (c : ChainKey) (s : MonitorState) :
    ((connectToChain timeoutMs behavior urls).2 = none →
      connectFailureSchedule timeoutMs behavior urls = some 30000)
    ∧ (connectFailureSchedule timeoutMs behavior urls = none →
      ∃ u, (connectToChain timeoutMs behavior urls).2 = some u)
    ∧ (maxConsecutiveErrors ≤ s.consecutiveErrors + 1 →
      (pollStep c s .error).1.isConnected = false
      ∧ (pollStep c s .error).2 = [.scheduleReconnect 10000]) := by
  refine ⟨?_, ?_, ?_⟩
  · intro h
    simp [connectFailureSchedule, h]
  · intro h
    rcases ho : (connectToChain timeoutMs behavior urls).2 with _ | u
    · simp [connectFailureSchedule, ho] at h
    · exact ⟨u, rfl⟩
  · intro h
    exact ⟨by simp [pollStep, h], by simp [pollStep, h]⟩

/-- Witness for C3's amended statement: with a behavior that always times
out, the single-candidate connect fails and schedules the 30000 ms retry. -/
theorem C3_witness :
    (connectToChain 5000 (fun _ => { responseMs := 5000, blockNumber := .num (.finite 1) })
        ["https://ethereum.publicnode.com"]).2 = none
    ∧ connectFailureSchedule 5000
        (fun _ => { responseMs := 5000, blockNumber := .num (.finite 1) })
        ["https://ethereum.publicnode.com"] = some 30000 :=
  ⟨by decide,
    (C3_retry_scheduling 5000
        (fun _ => { responseMs := 5000, blockNumber := .num (.finite 1) })
        ["https://ethereum.publicnode.com"] .ethereum
        { consecutiveErrors := 0, isConnected := true }).1 (by decide)⟩

/-- Counterexample to C4 as stated: the code's reconnection walk consults no
per-session state at all.  Concretely, in a session whose most recently
successful endpoint was the fallback `rpc.ankr.com/eth` and whose primary hit
the failure threshold, a reconnect in which every candidate fails still
attempts the full list in configured order: the first candidate attempted is
the configured primary (not the most recently successful one), and the
primary is not attempted last (no deprioritization). -/
theorem C4_counterexample :
    "https://rpc.ankr.com/eth" ∈ urlsToTry (CHAIN_CONFIGS .ethereum)
    ∧ (connectToChain connectionTimeout
        (fun _ => { responseMs := 0, blockNumber := .num (.finite 0) })
        (urlsToTry (CHAIN_CONFIGS .ethereum))).1
      = urlsToTry (CHAIN_CONFIGS .ethereum)
    ∧ (connectToChain connectionTimeout
        (fun _ => { responseMs := 0, blockNumber := .num (.finite 0) })
        (urlsToTry (CHAIN_CONFIGS .ethereum))).1.head?
      ≠ some "https://rpc.ankr.com/eth"
    ∧ (connectToChain connectionTimeout
        (fun _ => { responseMs := 0, blockNumber := .num (.finite 0) })
        (urlsToTry (CHAIN_CONFIGS .ethereum))).1.head?
      = some "https://ethereum.publicnode.com"
    ∧ (connectToChain connectionTimeout
        (fun _ => { responseMs := 0, blockNumber := .num (.finite 0) })
        (urlsToTry (CHAIN_CONFIGS .ethereum))).1.getLast?
      ≠ some "https://ethereum.publicnode.com" := by decide

/-- C4 as amended: every (re)connection attempt probes the same fixed
configured candidate list — the primary first, then the fallbacks in
configured order — independent of which endpoint previously succeeded or
failed; the first candidate attempted is always the configured primary, and
no endpoint is removed from the list. -/
theorem C4_reconnect_order_is_fixed (timeoutMs : ℚ)
    (behavior : String → ProbeBehavior) (c : ChainKey) :
    urlsToTry (CHAIN_CONFIGS c)
      = (CHAIN_CONFIGS c).rpcUrl :: (CHAIN_CONFIGS c).fallbackUrls
    ∧ (connectToChain timeoutMs behavior (urlsToTry (CHAIN_CONFIGS c))).1.head?
      = some (CHAIN_CONFIGS c).rpcUrl := by
  refine ⟨rfl, ?_⟩
  show (connectToChain timeoutMs behavior
      ((CHAIN_CONFIGS c).rpcUrl :: (CHAIN_CONFIGS c).fallbackUrls)).1.head? = _
  cases hc : candidateSucceeds timeoutMs (behavior (CHAIN_CONFIGS c).rpcUrl) <;>
    simp [connectToChain, hc]

/-- C5: connecting walks the candidates sequentially in configured order
(the attempted candidates are an in-order prefix of the configured list); a
candidate whose response does not arrive within the timeout fails; the first
successful candidate becomes the active endpoint, every earlier candidate
failed, and no candidate after it is attempted; and when no candidate
succeeds the whole list was attempted. -/
theorem C5_sequential_connect (timeoutMs : ℚ)
    (behavior : String → ProbeBehavior) (urls : List String) :
    ((connectToChain timeoutMs behavior urls).1
      = urls.take (connectToChain timeoutMs behavior urls).1.length)
    ∧ (∀ b : ProbeBehavior, timeoutMs ≤ b.responseMs →
        candidateSucceeds timeoutMs b = false)
    ∧ (∀ u, (connectToChain timeoutMs behavior urls).2 = some u →
        ∃ i, urls.get? i = some u
          ∧ candidateSucceeds timeoutMs (behavior u) = true
          ∧ (connectToChain timeoutMs behavior urls).1 = urls.take (i + 1)
          ∧ ∀ j v, j < i → urls.get? j = some v →
              candidateSucceeds timeoutMs (behavior v) = false)
    ∧ ((connectToChain timeoutMs behavior urls).2 = none →
        (connectToChain timeoutMs behavior urls).1 = urls
        ∧ ∀ v ∈ urls, candidateSucceeds timeoutMs (behavior v) = false) :=
  ⟨connectToChain_attempts_in_order timeoutMs behavior urls,
    fun b h => by simp [candidateSucceeds, h],
    fun u h => connectToChain_success_index timeoutMs behavior urls u h,
    fun h => connectToChain_exhausted timeoutMs behavior urls h⟩

/-- C6: the poll's priority-fee estimate.  On ethereum the estimate is the
value of the fee-estimation RPC call when it resolves with one, and the
fixed 2 gwei (`2e9` wei) default when the call errors; on every other chain
it is the fixed 1 gwei (`1e9` wei) default. -/
theorem C6_priority_fee_defaults (feeData : FeeDataResult) (c : ChainKey)
    (v : ℚ) :
    estimatePriorityFee .ethereum .err = parseUnitsGwei 2
    ∧ parseUnitsGwei 2 = 2 * 10 ^ 9
    ∧ estimatePriorityFee .ethereum (.ok (some v)) = v
    ∧ (c ≠ .ethereum → estimatePriorityFee c feeData = parseUnitsGwei 1)
    ∧ parseUnitsGwei 1 = 1 * 10 ^ 9 := by
  refine ⟨rfl, by norm_num [parseUnitsGwei], rfl, ?_, by norm_num [parseUnitsGwei]⟩
  intro h
  simp [estimatePriorityFee, h]

/-- Witness for C6: on polygon (not the primary network) the estimate is the
1 gwei default whatever the fee-estimation call did. -/
theorem C6_witness :
    ChainKey.polygon ≠ ChainKey.ethereum
    ∧ estimatePriorityFee .polygon .err = parseUnitsGwei 1 :=
  ⟨by decide, (C6_priority_fee_defaults .err .polygon 0).2.2.2.1 (by decide)⟩

/-- C7, evaluated on the code: the probe guard rejects a height of runtime
type other than number, and rejects a numeric height that is zero or
negative — in those cases the connect walk moves on to the next candidate
exactly as for any failure.  But the guard accepts `NaN` (in JavaScript
`typeof NaN === 'number'` and `NaN <= 0` is `false`), contradicting the
spec's requirement that a malformed height such as `NaN` be treated as an
invalid response. -/
theorem C7_invalid_height_guard :
    acceptBlockNumber (.num (.finite 0)) = false
    ∧ acceptBlockNumber (.num (.finite (-1))) = false
    ∧ acceptBlockNumber .nonNumber = false
    ∧ (connectToChain connectionTimeout
        (fun u => if u = "https://a.example" then
            { responseMs := 50, blockNumber := .num (.finite (-1)) }
          else { responseMs := 50, blockNumber := .num (.finite 19000000) })
        ["https://a.example", "https://b.example"]).2 = some "https://b.example"
    ∧ acceptBlockNumber (.num .nan) = true
    ∧ candidateSucceeds connectionTimeout
        { responseMs := 50, blockNumber := .num .nan } = true := by decide

/-- C8: for any outcome of the uniform draws in `[0,1)`, each simulated
per-network gwei value lies inside that network's fixed configured
`[min, max]` range (the ranges the generator documents per network),
inclusive. -/
theorem C8_simulation_bounds (r : ℚ) (_h0 : 0 ≤ r) (h1 : r < 1) :
    (10 ≤ ethBaseGwei r ∧ ethBaseGwei r ≤ 45)
    ∧ (0.5 ≤ ethPriorityGwei r ∧ ethPriorityGwei r ≤ 4)
    ∧ (15 ≤ polygonBaseGwei r ∧ polygonBaseGwei r ≤ 125)
    ∧ (0.5 ≤ polygonPriorityGwei r ∧ polygonPriorityGwei r ≤ 3.5)
    ∧ (0.05 ≤ arbitrumBaseGwei r ∧ arbitrumBaseGwei r ≤ 0.65)
    ∧ (0.005 ≤ arbitrumPriorityGwei r ∧ arbitrumPriorityGwei r ≤ 0.085) := by
  unfold ethBaseGwei ethPriorityGwei polygonBaseGwei polygonPriorityGwei
    arbitrumBaseGwei arbitrumPriorityGwei
  refine ⟨⟨le_max_left _ _, max_le (by norm_num) (by linarith)⟩,
    ⟨le_max_left _ _, max_le (by norm_num) (by nlinarith)⟩,
    ⟨le_max_left _ _, max_le (by norm_num) (by nlinarith)⟩,
    ⟨le_max_left _ _, max_le (by norm_num) (by nlinarith)⟩,
    ⟨le_max_left _ _, max_le (by norm_num) (by nlinarith)⟩,
    ⟨le_max_left _ _, max_le (by norm_num) (by nlinarith)⟩⟩

/-- Witness for C8: the bounds at the concrete draw 1/2. -/
theorem C8_witness :
    10 ≤ ethBaseGwei (1/2) ∧ ethBaseGwei (1/2) ≤ 45 :=
  (C8_simulation_bounds (1/2) (by norm_num) (by norm_num)).1

/-- Counterexample to C9 as stated: 123456789 wei displays as
`"0.12"` gwei (`toFixed(2)`), which converts back to 120000000 wei — off by
3456789 wei, far beyond the claimed 1e-9 tolerance. -/
theorem C9_counterexample :
    gweiRoundTrip (.finite 123456789) = 120000000
    ∧ ¬ (|gweiRoundTrip (.finite 123456789) - 123456789| ≤ 1e-9) := by
  have hval : gweiRoundTrip (.finite 123456789) = 120000000 := by
    simp only [gweiRoundTrip, gweiToWei, formatGwei, toFixedQ, safeNumber, round_eq]
    norm_num
  refine ⟨hval, ?_⟩
  rw [hval]
  norm_num

/-- C9 as amended: the display formatters round to the displayed precision
(2 decimal digits of gwei, 8 of ether), so the round trip through the
display unit returns the original wei value only within half an ulp of that
display precision: within `0.005` gwei (= 5e6 wei) for `formatGwei`, and
within `5e-9` ether (= 5e9 wei) for `formatEther`. -/
theorem C9_roundtrip_display_precision (wei : ℚ) :
    |gweiRoundTrip (.finite wei) - wei| ≤ 0.005 * 1e9
    ∧ |etherRoundTrip (.finite wei) - wei| ≤ 5e-9 * 1e18 := by
  constructor
  · have h := abs_sub_round (wei / 1e9 * 10 ^ 2)
    rw [abs_sub_comm] at h
    have key : gweiRoundTrip (.finite wei) - wei
        = ((round (wei / 1e9 * 10 ^ 2) : ℚ) - wei / 1e9 * 10 ^ 2) * 1e7 := by
      simp only [gweiRoundTrip, gweiToWei, formatGwei, toFixedQ, safeNumber]
      ring
    rw [key, abs_mul, abs_of_nonneg (by norm_num : (0:ℚ) ≤ 1e7)]
    calc |(round (wei / 1e9 * 10 ^ 2) : ℚ) - wei / 1e9 * 10 ^ 2| * 1e7
        ≤ 1 / 2 * 1e7 := by
          exact mul_le_mul_of_nonneg_right h (by norm_num)
      _ ≤ 0.005 * 1e9 := by norm_num
  · have h := abs_sub_round (wei / 1e18 * 10 ^ 8)
    rw [abs_sub_comm] at h
    have key : etherRoundTrip (.finite wei) - wei
        = ((round (wei / 1e18 * 10 ^ 8) : ℚ) - wei / 1e18 * 10 ^ 8) * 1e10 := by
      simp only [etherRoundTrip, etherToWei, formatEther, toFixedQ, safeNumber]
      ring
    rw [key, abs_mul, abs_of_nonneg (by norm_num : (0:ℚ) ≤ 1e10)]
    calc |(round (wei / 1e18 * 10 ^ 8) : ℚ) - wei / 1e18 * 10 ^ 8| * 1e10
        ≤ 1 / 2 * 1e10 := by
          exact mul_le_mul_of_nonneg_right h (by norm_num)
      _ ≤ 5e-9 * 1e18 := by norm_num

/-- C10: after any `updateGas` call — whatever the numeric inputs, `NaN` and
the infinities included — the stored `baseFee` and `priorityFee` are finite:
a non-finite input is replaced by 0 before being recorded, and a finite
input is stored unchanged. -/
theorem C10_stored_fees_finite (state : ChainGas) (timestamp : ℕ)
    (baseFee priorityFee : JSNum) :
    ((updateGas state timestamp baseFee priorityFee).baseFee).isFinite = true
    ∧ ((updateGas state timestamp baseFee priorityFee).priorityFee).isFinite = true
    ∧ (baseFee.isFinite = false →
        (updateGas state timestamp baseFee priorityFee).baseFee = .finite 0)
    ∧ (priorityFee.isFinite = false →
        (updateGas state timestamp baseFee priorityFee).priorityFee = .finite 0)
    ∧ (∀ q, baseFee = .finite q →
        (updateGas state timestamp baseFee priorityFee).baseFee = .finite q) := by
  refine ⟨rfl, rfl, ?_, ?_, ?_⟩
  · intro h
    show JSNum.finite (finiteOrZero baseFee) = JSNum.finite 0
    cases baseFee with
    | finite q => simp [JSNum.isFinite] at h
    | nan => rfl
    | posInf => rfl
    | negInf => rfl
  · intro h
    show JSNum.finite (finiteOrZero priorityFee) = JSNum.finite 0
    cases priorityFee with
    | finite q => simp [JSNum.isFinite] at h
    | nan => rfl
    | posInf => rfl
    | negInf => rfl
  · intro q hq
    subst hq
    rfl

end GasTracker
